import Mathlib

/-!
Shallow embedding of the viconProbe core (src/viconProbe/data.py) for checking
the natural-language specification against the code.

Modelling choices:
* A grid cell carries the per-cell value pandas.read_csv produces: a missing or
  empty cell is NaN (`Cell.nan`), a cell whose text is a numeric literal is a
  number (`Cell.num`, modelled over the rationals), any other text stays a
  string (`Cell.str`).
* Python floats are modelled by `PyFloat`: either NaN or a rational value.
* Fallible Python code (uncaught exceptions such as IndexError, ValueError,
  KeyError, NameError) is modelled with `Except Unit`; the bare
  `try ... except` in `batch_retrieve` maps an in-loop `.error` to the
  warning-and-return-None path, modelled as `.ok none`.
-/

deriving instance DecidableEq for Except

namespace Vicon

/-- A cell of the loaded data frame, as pandas materialises it: NaN for
missing/empty cells, an individually inferred number for numeric literals,
and the raw text otherwise. -/
inductive Cell where
  | nan : Cell
  | num : ℚ → Cell
  | str : String → Cell
  deriving DecidableEq, Repr

/-- A Python float: NaN or a (finite) value, modelled over ℚ. -/
inductive PyFloat where
  | nan : PyFloat
  | val : ℚ → PyFloat
  deriving DecidableEq, Repr

/-- The grid: a list of rows of cells, as loaded from the csv file. -/
def Grid : Type := List (List Cell)

/-- Numeric value of a digit list (most significant first); used by the
string-to-number coercion model. -/
def digitsVal (l : List Char) : Nat :=
  l.foldl (fun acc c => acc * 10 + (c.toNat - 48)) 0

/-- Parse an unsigned decimal literal (digits, optionally a point and more
digits, at least one digit overall), as Python float() accepts. -/
def parseUnsigned (s : List Char) : Option ℚ :=
  let intPart := s.takeWhile Char.isDigit
  let rest := s.dropWhile Char.isDigit
  match rest with
  | [] => if intPart.isEmpty then none else some ((digitsVal intPart : ℤ) : ℚ)
  | '.' :: frac =>
      if frac.all Char.isDigit && !(intPart.isEmpty && frac.isEmpty) then
        some ((digitsVal intPart : ℚ) + (digitsVal frac : ℚ) / ((10 : ℚ) ^ frac.length))
      else none
  | _ => none

/-- Python float() on a string. Modelled for the literal shapes occurring in
this development: optional sign, plain decimal literals, and the "nan"
spelling; all other text raises (returns `none`). -/
def parsePyFloat (s : String) : Option PyFloat :=
  let t := s.trim
  if t = "nan" || t = "NaN" then some PyFloat.nan
  else
    match t.toList with
    | '-' :: rest => (parseUnsigned rest).map (fun x => PyFloat.val (-x))
    | '+' :: rest => (parseUnsigned rest).map PyFloat.val
    | cs => (parseUnsigned cs).map PyFloat.val

/-- Python int() on a string: optional sign and digits only. -/
def parsePyInt (s : String) : Option ℤ :=
  match s.trim.toList with
  | '-' :: rest =>
      if rest.all Char.isDigit && !rest.isEmpty then some (-(digitsVal rest : ℤ)) else none
  | '+' :: rest =>
      if rest.all Char.isDigit && !rest.isEmpty then some ((digitsVal rest : ℤ)) else none
  | cs => if cs.all Char.isDigit && !cs.isEmpty then some ((digitsVal cs : ℤ)) else none

/-- Python int() truncation toward zero on a rational. -/
def ratTrunc (x : ℚ) : ℤ :=
  if 0 ≤ x then x.floor else x.ceil

/-- Python float(cell): floats pass through (NaN included), numeric text
parses, other text raises (`none`). -/
def Cell.toFloat : Cell → Option PyFloat
  | Cell.nan => some PyFloat.nan
  | Cell.num x => some (PyFloat.val x)
  | Cell.str s => parsePyFloat s

/-- Python int(cell): numbers truncate toward zero, NaN raises, text must be
an integer literal. -/
def Cell.toInt : Cell → Option ℤ
  | Cell.nan => none
  | Cell.num x => some (ratTrunc x)
  | Cell.str s => parsePyInt s

/-- A cell's numeric value as scipy sees it when building a float array;
non-numeric objects (strings, even numeric-looking ones, make the array
non-float) are rejected. -/
def Cell.asNum : Cell → Option ℚ
  | Cell.num x => some x
  | _ => none

/-- df.loc[r, c]: cell at row r, column c; absent positions are NaN. -/
def cellAt (g : Grid) (r c : Nat) : Cell :=
  (g.getD r []).getD c Cell.nan

/-- df.loc[r, :].tolist(): the full row r as max_col cells (missing → NaN). -/
def rowCells (g : Grid) (r : Nat) (maxCol : Nat) : List Cell :=
  (List.range maxCol).map (fun c => cellAt g r c)

/-- df.loc[lo:hi, c].tolist(): label-based inclusive row slice of column c.
`none` bounds model Python's open slice ends (an absent start slices from the
first row, an absent stop slices to the last row). -/
def colSlice (g : Grid) (lo hi : Option Nat) (c : Nat) : List Cell :=
  let l := lo.getD 0
  let rows :=
    match hi with
    | none => g.drop l
    | some h => (g.take (h + 1)).drop l
  rows.map (fun row => row.getD c Cell.nan)

/-- df_match_indexes (np.where(df == symbol)): all positions whose cell equals
the given string, in row-major order. -/
def df_match_indexes (g : Grid) (symbol : String) : List (Nat × Nat) :=
  (g.enum.map (fun p =>
    p.2.enum.filterMap (fun q =>
      match q.2 with
      | Cell.str s => if s = symbol then some (p.1, q.1) else none
      | _ => none))).flatten

/-- df_first_match_row: row index of the first match; indexing an empty match
list raises IndexError (`.error`). -/
def df_first_match_row (g : Grid) (symbol : String) : Except Unit Nat :=
  match df_match_indexes g symbol with
  | [] => Except.error ()
  | (r, _) :: _ => Except.ok r

/-- The pairing loop of ViconData.gait_retrieve over the row-major match list:
for n = 0, 2, 4, ... it reads the start time at (rows[n], cols[n]+1) and the
end time at (rows[n+1], cols[n]+1) — note both columns come from cols[n] — and
float() of an unparseable cell, or indexing rows[n+1] past the end on an odd
match count, raises (`.error`). -/
def gaitPairs (g : Grid) : List (Nat × Nat) → Except Unit (List (PyFloat × PyFloat))
  | [] => Except.ok []
  | [_] => Except.error ()
  | p1 :: p2 :: rest =>
    match (cellAt g p1.1 (p1.2 + 1)).toFloat with
    | none => Except.error ()
    | some t1 =>
      match (cellAt g p2.1 (p1.2 + 1)).toFloat with
      | none => Except.error ()
      | some t2 =>
        match gaitPairs g rest with
        | Except.error _ => Except.error ()
        | Except.ok tl => Except.ok ((t1, t2) :: tl)

/-- ViconData.gait_retrieve: pair up the row-major "Foot Strike" matches into
the timestamps list. -/
def gait_retrieve (g : Grid) : Except Unit (List (PyFloat × PyFloat)) :=
  gaitPairs g (df_match_indexes g ("Foot Strike"))

/-- time2row (inside batch_retrieve): frame = time * output_rate;
row = int(row_start + frame - frame_start) (Python int() truncation).
If row < row_start the invalid time is printed and None is returned
(modelled `.ok none`); int(nan) raises. -/
def time2row (row_start : Nat) (frame_start output_rate : ℤ) :
    PyFloat → Except Unit (Option Nat)
  | PyFloat.nan => Except.error ()
  | PyFloat.val t =>
    let row := ratTrunc ((row_start : ℚ) + t * (output_rate : ℚ) - (frame_start : ℚ))
    if row < (row_start : ℤ) then Except.ok none
    else Except.ok (some row.toNat)

/-- gait_extract (inside batch_retrieve): slice df.loc[time2row(start) :
time2row(end), col] and post-process it with self.data_process (the `proc`
parameter: identity for ViconData, the interpolating variant for
ViconData_interp). A `none` from time2row flows into the slice as an open
bound, exactly as Python's df.loc[None:...] does. -/
def gait_extract (proc : List Cell → Except Unit (List Cell)) (g : Grid)
    (row_start : Nat) (frame_start output_rate : ℤ)
    (s e : PyFloat) (c : Nat) : Except Unit (List Cell) :=
  match time2row row_start frame_start output_rate s with
  | Except.error _ => Except.error ()
  | Except.ok lo =>
    match time2row row_start frame_start output_rate e with
    | Except.error _ => Except.error ()
    | Except.ok hi => proc (colSlice g lo hi c)

/-- Per-gait storage: sub-parameter name → processed series. -/
abbrev SubT := List (String × List PyFloat)

/-- Per-gait storage: parameter name → sub-parameter table (a Python dict,
modelled as an insertion-ordered association list). -/
abbrev AListT := List (String × SubT)

/-- The gaits list built by batch_retrieve: one parameter table per gait. -/
abbrev GaitsT := List AListT

instance decEqSubT : DecidableEq SubT :=
  inferInstanceAs (DecidableEq (List (String × List PyFloat)))

instance decEqAListT : DecidableEq AListT :=
  inferInstanceAs (DecidableEq (List (String × SubT)))

instance decEqGaitsT : DecidableEq GaitsT :=
  inferInstanceAs (DecidableEq (List AListT))

/-- Python dict assignment d[k] = v: overwrite in place if the key exists,
append otherwise. -/
def setKey {α : Type} (l : List (String × α)) (k : String) (v : α) :
    List (String × α) :=
  if l.any (fun p => p.1 = k) then
    l.map (fun p => if p.1 = k then (k, v) else p)
  else l ++ [(k, v)]

/-- Python dict lookup d[k] (KeyError modelled as `none`). -/
def lookupKey {α : Type} (l : List (String × α)) (k : String) : Option α :=
  (l.find? (fun p => p.1 = k)).map (fun p => p.2)

/-- float() mapped over the processed series (list(map(float, event_data)));
any unparseable entry raises. -/
def mapFloats : List Cell → Option (List PyFloat)
  | [] => some []
  | c :: r =>
    match c.toFloat with
    | none => none
    | some f => (mapFloats r).map (fun l => f :: l)

/-- The parameter-name derivation of the code: the second ':'-separated
segment, param_list[n].split(':')[1]; no colon in the cell raises IndexError. -/
def deriveName (s : String) : Option String :=
  (s.splitOn (":")).get? 1

/-- The `type(x) == str` test of the header loop as a boolean. -/
def isStrCell : Cell → Bool
  | Cell.str _ => true
  | _ => false

/-- The inner `for m in range(len(gaits))` loop of batch_retrieve for one
sub-parameter column: extract each gait's slice, coerce to floats, resolve the
current parameter name (NameError when no parameter header was seen yet) and
store under gaits[m][param_name][sub_param_name]. -/
def subLoop (proc : List Cell → Except Unit (List Cell)) (g : Grid)
    (row_start : Nat) (frame_start output_rate : ℤ)
    (nm : Option String) (sub : String) (col : Nat) :
    List ((PyFloat × PyFloat) × AListT) → Except Unit (List AListT)
  | [] => Except.ok []
  | (t, gait) :: rest =>
    match gait_extract proc g row_start frame_start output_rate t.1 t.2 col with
    | Except.error _ => Except.error ()
    | Except.ok raw =>
      match mapFloats raw with
      | none => Except.error ()
      | some ed =>
        match nm with
        | none => Except.error ()
        | some p =>
          match lookupKey gait p with
          | none => Except.error ()
          | some subd =>
            match subLoop proc g row_start frame_start output_rate nm sub col rest with
            | Except.error _ => Except.error ()
            | Except.ok tl => Except.ok (setKey gait p (setKey subd sub ed) :: tl)

/-- The sub-parameter half of one column step: if sub_param_list[n] is a
string, run the extraction loop over all gaits; otherwise leave the state
unchanged. -/
def colStepSub (proc : List Cell → Except Unit (List Cell)) (g : Grid)
    (ts : List (PyFloat × PyFloat)) (row_start : Nat) (frame_start output_rate : ℤ)
    (sub_param_list : List Cell) (nm : Option String) (gaits : GaitsT) (n : Nat) :
    Except Unit (Option String × GaitsT) :=
  match sub_param_list.getD n Cell.nan with
  | Cell.str sub =>
    match subLoop proc g row_start frame_start output_rate nm sub n (ts.zip gaits) with
    | Except.error _ => Except.error ()
    | Except.ok gaits2 => Except.ok (nm, gaits2)
  | _ => Except.ok (nm, gaits)

/-- One iteration of batch_retrieve's `for n in range(2, len(param_list))`:
if param_list[n] is a string, param_name = param_list[n].split(':')[1]
(IndexError when there is no colon) and every gait gets a fresh empty dict
under that name; then the sub-parameter half runs. -/
def colStep (proc : List Cell → Except Unit (List Cell)) (g : Grid)
    (ts : List (PyFloat × PyFloat)) (row_start : Nat) (frame_start output_rate : ℤ)
    (param_list sub_param_list : List Cell)
    (st : Option String × GaitsT) (n : Nat) :
    Except Unit (Option String × GaitsT) :=
  match param_list.getD n Cell.nan with
  | Cell.str s =>
    match deriveName s with
    | none => Except.error ()
    | some nm =>
      colStepSub proc g ts row_start frame_start output_rate sub_param_list
        (some nm) (st.2.map (fun gait => setKey gait nm [])) n
  | _ =>
    colStepSub proc g ts row_start frame_start output_rate sub_param_list
      st.1 st.2 n

/-- gaits = [{} for n in range(len(self.timestamps))]. -/
def initGaits (ts : List (PyFloat × PyFloat)) : GaitsT :=
  ts.map (fun _ => [])

/-- The whole try-block loop of batch_retrieve: fold the column step over
columns 2 .. len(param_list)-1 starting with no current parameter and empty
gait dicts. -/
def batchLoop (proc : List Cell → Except Unit (List Cell)) (g : Grid)
    (ts : List (PyFloat × PyFloat)) (row_start : Nat) (frame_start output_rate : ℤ)
    (param_list sub_param_list : List Cell) : Except Unit GaitsT :=
  ((List.range' 2 (param_list.length - 2)).foldlM
    (colStep proc g ts row_start frame_start output_rate param_list sub_param_list)
    (none, initGaits ts)).map (fun st => st.2)

/-- ViconData.batch_retrieve: locate the batch anchor (IndexError escapes when
the name is absent), read frame_start and output_rate (int() may raise,
uncaught), then run the column loop inside the bare try: an in-loop error is
caught, a warning naming the file is printed, and None is returned
(`.ok none`); success returns the gaits list (`.ok (some _)`). -/
def batch_retrieve (proc : List Cell → Except Unit (List Cell)) (g : Grid)
    (ts : List (PyFloat × PyFloat)) (batch : String) (maxCol : Nat) :
    Except Unit (Option GaitsT) :=
  match df_first_match_row g batch with
  | Except.error _ => Except.error ()
  | Except.ok anchor =>
    match (cellAt g (anchor + 5) 0).toInt with
    | none => Except.error ()
    | some frame_start =>
      match (cellAt g (anchor + 5 - 4) 0).toInt with
      | none => Except.error ()
      | some output_rate =>
        match batchLoop proc g ts (anchor + 5) frame_start output_rate
            (rowCells g (anchor + 5 - 3) maxCol) (rowCells g (anchor + 5 - 2) maxCol) with
        | Except.ok gaits => Except.ok (some gaits)
        | Except.error _ => Except.ok none

/-- ViconData.__init__ after loading the grid: gait_retrieve, then
self.attrs[batch] = self.batch_retrieve(batch) for each requested batch, in
order; any uncaught exception aborts the whole construction. -/
def viconAttrs (proc : List Cell → Except Unit (List Cell)) (g : Grid)
    (batches : List String) (maxCol : Nat) :
    Except Unit (List (String × Option GaitsT)) :=
  match gait_retrieve g with
  | Except.error _ => Except.error ()
  | Except.ok ts =>
    batches.mapM (fun b =>
      (batch_retrieve proc g ts b maxCol).map (fun r => (b, r)))

/-- ViconData.data_process: the identity post-processor. -/
def data_process_base (data : List Cell) : Except Unit (List Cell) :=
  Except.ok data

/-- The filter of the NaN-removal comprehension: keep d when
math.isnan(float(d)) is False. -/
def keepCell (c : Cell) : Bool :=
  decide (c.toFloat ≠ some PyFloat.nan)

/-- scipy's conversion of the cleaned list into a numeric array: every kept
entry must be an actual number, otherwise interp1d raises. -/
def mapNums : List Cell → Option (List ℚ)
  | [] => some []
  | c :: r =>
    match c.asNum with
    | none => none
    | some x => (mapNums r).map (fun l => x :: l)

/-- np.linspace(0, stop, num): num evenly spaced samples over [0, stop]. -/
def linspace (stop : ℚ) (num : Nat) : List ℚ :=
  if num ≤ 1 then (List.range num).map (fun _ => (0 : ℚ))
  else (List.range num).map (fun i : Nat => stop * (i : ℚ) / ((num - 1 : Nat) : ℚ))

/-- Piecewise-linear (slinear) interpolation of the samples ys placed at
integer positions 0..len-1, evaluated at position x. -/
def interpAt (ys : List ℚ) (x : ℚ) : ℚ :=
  let k := x.floor.toNat
  if k + 1 < ys.length then
    ys.getD k 0 + (x - (k : ℚ)) * (ys.getD (k + 1) 0 - ys.getD k 0)
  else ys.getD (ys.length - 1) 0

/-- ViconData_interp.data_process: remove the entries whose float() is NaN
(float() of an unparseable entry raises, leaving data_remove_nan unbound — a
NameError, modelled `.error`); if fewer than threshold_num or fewer than 2
valid points remain, return the cleaned list unresampled; otherwise resample
to point_num points by linear interpolation (interp1d needs a numeric array:
retained non-numeric text raises). -/
def data_process_interp (point_num threshold_num : Nat) (data : List Cell) :
    Except Unit (List Cell) :=
  match mapFloats data with
  | none => Except.error ()
  | some _ =>
    let data_remove_nan := data.filter keepCell
    if data_remove_nan.length < threshold_num ∨ data_remove_nan.length < 2 then
      Except.ok data_remove_nan
    else
      match mapNums data_remove_nan with
      | none => Except.error ()
      | some ys =>
        Except.ok ((linspace (((ys.length - 1 : Nat)) : ℚ) point_num).map
          (fun x => Cell.num (interpAt ys x)))

/-- The payload a caller sees for one batch after construction: the gaits
list on success, and nothing when the batch's extraction was aborted with a
warning or crashed. -/
def exceptGetOpt : Except Unit (Option GaitsT) → Option GaitsT
  | Except.ok r => r
  | Except.error _ => none

/-- Pure left-to-right scan of the parameter-header row over the given
columns: the derived name of the most recent string cell, if any. Used to
state which parameter name is current at each column. -/
def paramScan (pl : List Cell) : List Nat → Option String → Option String
  | [], acc => acc
  | k :: rest, acc =>
    match pl.getD k Cell.nan with
    | Cell.str s => paramScan pl rest (deriveName s)
    | _ => paramScan pl rest acc

/-- Modelled from the spec's words (for comparison only): the parameter name
as 'the text after the first ':' delimiter in that cell'. -/
def specParamName (s : String) : Option String :=
  match s.splitOn (":") with
  | [] => none
  | [_] => none
  | _ :: rest => some (String.intercalate (":") rest)

/-! Concrete grids used by witnesses and counterexamples. -/

/-- A grid holding exactly three "Foot Strike" markers (odd match count),
each with a numeric time cell to its right. -/
def exG1 : Grid :=
  [[Cell.str ("Foot Strike"), Cell.num 1],
   [Cell.str ("Foot Strike"), Cell.num 2],
   [Cell.str ("Foot Strike"), Cell.num 3]]

/-- A grid holding exactly two "Foot Strike" markers with numeric time
cells. -/
def wG1 : Grid :=
  [[Cell.str ("Foot Strike"), Cell.num 1],
   [Cell.str ("Foot Strike"), Cell.num 2]]

/-- A one-cell grid: no "Foot Strike" marker and no batch-name cell at
all. -/
def exG2 : Grid := [[Cell.num 1]]

/-- A grid with two batches: batch "A" (anchor row 0) has a clean numeric
column, batch "B" (anchor row 8) has a non-numeric cell "bad" inside the
sliced region of its sub-parameter column. One gait: markers at rows 6 and 7,
times 0 and 0.01. -/
def exG3 : Grid :=
  [[Cell.str ("A")],
   [Cell.num 100],
   [Cell.nan, Cell.nan, Cell.str ("s:P")],
   [Cell.nan, Cell.nan, Cell.nan, Cell.str ("X")],
   [],
   [Cell.num 0, Cell.nan, Cell.nan, Cell.num 1],
   [Cell.str ("Foot Strike"), Cell.num 0, Cell.nan, Cell.num 2],
   [Cell.str ("Foot Strike"), Cell.num (1/100)],
   [Cell.str ("B")],
   [Cell.num 100],
   [Cell.nan, Cell.nan, Cell.str ("s:Q")],
   [Cell.nan, Cell.nan, Cell.nan, Cell.str ("Y")],
   [],
   [Cell.num 0, Cell.nan, Cell.nan, Cell.str ("bad")],
   [Cell.nan, Cell.nan, Cell.nan, Cell.num 5]]

/-- A batch layout whose frame_start (100) exceeds every frame computed from
the gait's start time 0, so time2row(start) is invalid; the end time 1.02
maps to row 7. Parameter header at column 2, sub-parameter at column 3. -/
def exG6 : Grid :=
  [[Cell.str ("Joints")],
   [Cell.num 100],
   [Cell.nan, Cell.nan, Cell.str ("s:P")],
   [Cell.nan, Cell.nan, Cell.nan, Cell.str ("X")],
   [],
   [Cell.num 100, Cell.nan, Cell.nan, Cell.num 1],
   [Cell.nan, Cell.nan, Cell.nan, Cell.num 2]]

/-- Two "Foot Strike" markers in different columns: the first at (0,0) with
time 1 at (0,1), the second at (1,3) with the cell one column to its right
(1,4) holding 9, while (1,1) (one right of the first marker's column) holds
7. -/
def exG8 : Grid :=
  [[Cell.str ("Foot Strike"), Cell.num 1],
   [Cell.nan, Cell.num 7, Cell.nan, Cell.str ("Foot Strike"), Cell.num 9]]

/-- A batch grid whose parameter header cell "m:a:b" contains two colons;
sub-parameter "X" at column 3, numeric data in rows 5-6 of column 3,
frame_start 0 and output_rate 100. -/
def exG9 : Grid :=
  [[Cell.str ("Joints")],
   [Cell.num 100],
   [Cell.nan, Cell.nan, Cell.str ("m:a:b")],
   [Cell.nan, Cell.nan, Cell.nan, Cell.str ("X")],
   [],
   [Cell.num 0, Cell.nan, Cell.nan, Cell.num 7],
   [Cell.nan, Cell.nan, Cell.nan, Cell.num 8]]

/-- A batch grid with a sub-parameter header "X" at column 2 and no string
cell anywhere in the parameter-header row. -/
def exG10 : Grid :=
  [[Cell.str ("Joints")],
   [Cell.num 100],
   [],
   [Cell.nan, Cell.nan, Cell.str ("X")],
   [],
   [Cell.num 0]]

/-! Helper lemmas. -/

/-- When every cell's float() succeeds, the mapped coercion succeeds. -/
theorem mapFloats_isSome {l : List Cell}
    (h : ∀ c ∈ l, (Cell.toFloat c).isSome = true) :
    ∃ fs, mapFloats l = some fs := by
  induction l with
  | nil => exact ⟨[], rfl⟩
  | cons c r ih =>
    have hc := h c (List.mem_cons_self c r)
    obtain ⟨f, hf⟩ := Option.isSome_iff_exists.mp hc
    obtain ⟨fs, hfs⟩ := ih (fun d hd => h d (List.mem_cons_of_mem c hd))
    exact ⟨f :: fs, by simp [mapFloats, hf, hfs]⟩

/-- When every cell is numeric, the array conversion succeeds and preserves
length. -/
theorem mapNums_some {l : List Cell}
    (h : ∀ c ∈ l, (Cell.asNum c).isSome = true) :
    ∃ ys, mapNums l = some ys ∧ ys.length = l.length := by
  induction l with
  | nil => exact ⟨[], rfl, rfl⟩
  | cons c r ih =>
    have hc := h c (List.mem_cons_self c r)
    obtain ⟨x, hx⟩ := Option.isSome_iff_exists.mp hc
    obtain ⟨ys, hys, hlen⟩ := ih (fun d hd => h d (List.mem_cons_of_mem c hd))
    exact ⟨x :: ys, by simp [mapNums, hx, hys], by simp [hlen]⟩

/-- np.linspace produces exactly num samples. -/
theorem linspace_length (stop : ℚ) (num : Nat) : (linspace stop num).length = num := by
  unfold linspace
  split <;> rw [List.length_map, List.length_range]

/-- C5 (corrected): for every time value accepted by time2row, the produced
row index equals int(row_start + time * output_rate - frame_start) — Python
truncation toward zero of the whole expression, not row_start +
round(time * output_rate) - frame_start — and it is at least row_start. -/
theorem c5_time2row_trunc (rs : Nat) (fs orate : ℤ) (t : ℚ) (r : Nat)
    (h : time2row rs fs orate (PyFloat.val t) = Except.ok (some r)) :
    (r : ℤ) = ratTrunc ((rs : ℚ) + t * (orate : ℚ) - (fs : ℚ)) ∧ rs ≤ r := by
  simp only [time2row] at h
  split at h
  · simp at h
  · rename_i hge
    simp only [Except.ok.injEq, Option.some.injEq] at h
    subst h
    omega

/-- Witness for C5's theorem at row_start 10, frame_start 0, output_rate 100,
time 3/200. -/
theorem c5_time2row_trunc_witness :
    ((11 : Nat) : ℤ) = ratTrunc ((10 : ℚ) + (3/200) * ((100 : ℤ) : ℚ) - ((0 : ℤ) : ℚ)) ∧
      (10 : Nat) ≤ 11 :=
  c5_time2row_trunc 10 0 100 (3/200) 11 (by with_unfolding_all rfl)

/-- Counterexample for C5 as stated: at time 0.015 with output_rate 100,
row_start 10, frame_start 0, the code produces row 11 while the claimed
formula row_start + round(time * output_rate) - frame_start gives 12. -/
theorem c5_round_counterexample :
    time2row 10 0 100 (PyFloat.val (3/200)) = Except.ok (some 11) ∧
    (10 : ℤ) + round ((3/200 : ℚ) * 100) - 0 = 12 ∧ ((11 : ℤ) ≠ 12) := by
  refine ⟨by with_unfolding_all rfl, ?_, by decide⟩
  norm_num [round_eq]

/-- C4 (corrected): the interpolating processor first removes non-finite
values; a series whose valid count is below threshold_num or below 2 is
passed through (output = cleaned list, length = valid count); a numeric
series with exactly threshold_num valid points, when threshold_num ≥ 2, is
resampled to exactly point_num points. -/
theorem c4_interp_threshold (pn tn : Nat) (data : List Cell)
    (hco : ∀ c ∈ data, (Cell.toFloat c).isSome = true) :
    ((data.filter keepCell).length < tn ∨ (data.filter keepCell).length < 2 →
      data_process_interp pn tn data = Except.ok (data.filter keepCell)) ∧
    ((data.filter keepCell).length = tn → 2 ≤ tn →
      (∀ c ∈ data, keepCell c = true → (Cell.asNum c).isSome = true) →
      (data_process_interp pn tn data).map List.length = Except.ok pn) := by
  obtain ⟨fs, hfs⟩ := mapFloats_isSome hco
  constructor
  · intro hlen
    simp only [data_process_interp, hfs]
    rw [if_pos hlen]
  · intro hlen h2 hnum
    have hcond : ¬ ((data.filter keepCell).length < tn ∨ (data.filter keepCell).length < 2) := by
      omega
    have hnum2 : ∀ c ∈ data.filter keepCell, (Cell.asNum c).isSome = true := by
      intro c hc
      rw [List.mem_filter] at hc
      exact hnum c hc.1 hc.2
    obtain ⟨ys, hys, hyl⟩ := mapNums_some hnum2
    simp only [data_process_interp, hfs]
    rw [if_neg hcond, hys]
    simp [Except.map, List.length_map, linspace_length]

/-- Witness for C4's theorem: threshold 5 passes a 1-valid-point series
through after dropping its NaN; threshold 2 resamples a 2-valid-point series
to 5 points. -/
theorem c4_interp_threshold_witness :
    data_process_interp 3 5 [Cell.nan, Cell.num 5] = Except.ok [Cell.num 5] ∧
    (data_process_interp 5 2 [Cell.num 1, Cell.nan, Cell.num 2]).map List.length =
      Except.ok 5 := by
  constructor
  · exact ((c4_interp_threshold 3 5 [Cell.nan, Cell.num 5] (by decide)).1
      (by decide)).trans (by decide)
  · exact (c4_interp_threshold 5 2 [Cell.num 1, Cell.nan, Cell.num 2] (by decide)).2
      (by with_unfolding_all decide) (by decide) (by decide)

/-- Counterexample for C4 as stated: with threshold_num = 1 and point_num = 3,
a series with exactly threshold_num (= 1) valid points is passed through with
length 1, not resampled to point_num, because of the separate < 2 guard. -/
theorem c4_threshold_one_counterexample :
    data_process_interp 3 1 [Cell.num 5] = Except.ok [Cell.num 5] ∧
    ([Cell.num 5].filter keepCell).length = 1 ∧ ¬ ((1 : Nat) = 3) := by
  with_unfolding_all decide

/-- C7 (confirmed): whenever the valid count reaches the resampling branch,
every output entry of the interpolating processor is non-NaN: the NaN
removal happens before resampling and resampling emits numeric cells only. -/
theorem c7_no_nan_after_resample (pn tn : Nat) (data out : List Cell)
    (hreach : tn ≤ (data.filter keepCell).length ∧ 2 ≤ (data.filter keepCell).length)
    (h : data_process_interp pn tn data = Except.ok out) :
    ∀ c ∈ out, c ≠ Cell.nan := by
  unfold data_process_interp at h
  cases hfs : mapFloats data with
  | none => rw [hfs] at h; exact absurd h (by simp)
  | some fs =>
    rw [hfs] at h
    have hcond : ¬ ((data.filter keepCell).length < tn ∨ (data.filter keepCell).length < 2) := by
      omega
    rw [if_neg hcond] at h
    cases hys : mapNums (data.filter keepCell) with
    | none => rw [hys] at h; exact absurd h (by simp)
    | some ys =>
      rw [hys] at h
      simp only [Except.ok.injEq] at h
      subst h
      intro c hc
      rw [List.mem_map] at hc
      obtain ⟨x, _, rfl⟩ := hc
      simp

/-- Witness for C7's theorem on a 2-valid-point series with a NaN inside. -/
theorem c7_no_nan_after_resample_witness :
    data_process_interp 3 2 [Cell.num 1, Cell.nan, Cell.num 2] =
      Except.ok [Cell.num 1, Cell.num (3/2), Cell.num 2] ∧
    Cell.nan ∉ [Cell.num 1, Cell.num (3/2), Cell.num 2] := by
  refine ⟨by with_unfolding_all decide, fun hm => ?_⟩
  exact c7_no_nan_after_resample 3 2 [Cell.num 1, Cell.nan, Cell.num 2]
    [Cell.num 1, Cell.num (3/2), Cell.num 2] (by decide)
    (by with_unfolding_all decide) Cell.nan hm rfl

/-- An odd-length match list always makes the pairing loop raise: the loop
body reads matches[n + 1] at the final iteration. -/
theorem gaitPairs_odd_aux (g : Grid) :
    ∀ (N : Nat) (l : List (Nat × Nat)), l.length ≤ N → l.length % 2 = 1 →
      gaitPairs g l = Except.error () := by
  intro N
  induction N with
  | zero =>
    intro l hl hodd
    rw [Nat.le_zero, List.length_eq_zero] at hl
    subst hl
    simp at hodd
  | succ n ih =>
    intro l hl hodd
    match l with
    | [] => simp at hodd
    | [p] => rfl
    | p1 :: p2 :: rest =>
      have hr : rest.length ≤ n := by simp at hl; omega
      have ho : rest.length % 2 = 1 := by
        simp only [List.length_cons] at hodd
        omega
      have hrec := ih rest hr ho
      cases h1 : (cellAt g p1.1 (p1.2 + 1)).toFloat with
      | none => simp [gaitPairs, h1]
      | some t1 =>
        cases h2 : (cellAt g p2.1 (p1.2 + 1)).toFloat with
        | none => simp [gaitPairs, h1, h2]
        | some t2 => simp [gaitPairs, h1, h2, hrec]

/-- An even-length match list whose paired time cells all coerce yields
exactly half as many gait events. -/
theorem gaitPairs_even_aux (g : Grid) :
    ∀ (N : Nat) (l : List (Nat × Nat)), l.length ≤ N → l.length % 2 = 0 →
      (∀ p ∈ l, ∀ q ∈ l, ((cellAt g q.1 (p.2 + 1)).toFloat).isSome = true) →
      ∃ ts, gaitPairs g l = Except.ok ts ∧ ts.length = l.length / 2 := by
  intro N
  induction N with
  | zero =>
    intro l hl _ _
    rw [Nat.le_zero, List.length_eq_zero] at hl
    subst hl
    exact ⟨[], rfl, rfl⟩
  | succ n ih =>
    intro l hl heven hc
    match l with
    | [] => exact ⟨[], rfl, rfl⟩
    | [p] => simp at heven
    | p1 :: p2 :: rest =>
      have hr : rest.length ≤ n := by simp at hl; omega
      have he : rest.length % 2 = 0 := by
        simp only [List.length_cons] at heven
        omega
      have hcr : ∀ p ∈ rest, ∀ q ∈ rest,
          ((cellAt g q.1 (p.2 + 1)).toFloat).isSome = true := by
        intro p hp q hq
        exact hc p (by simp [hp]) q (by simp [hq])
      obtain ⟨ts, hts, hlen⟩ := ih rest hr he hcr
      have h1 : ((cellAt g p1.1 (p1.2 + 1)).toFloat).isSome = true :=
        hc p1 (by simp) p1 (by simp)
      have h2 : ((cellAt g p2.1 (p1.2 + 1)).toFloat).isSome = true :=
        hc p1 (by simp) p2 (by simp)
      obtain ⟨t1, ht1⟩ := Option.isSome_iff_exists.mp h1
      obtain ⟨t2, ht2⟩ := Option.isSome_iff_exists.mp h2
      refine ⟨(t1, t2) :: ts, by simp [gaitPairs, ht1, ht2, hts], ?_⟩
      simp only [List.length_cons, hlen]
      omega

/-- C1 (corrected): when the "Foot Strike" match count is even and each
paired time cell coerces to float, gait_retrieve yields exactly
match_count / 2 gait events; when the match count is odd, the final
events_rows[n + 1] access raises an uncaught IndexError — the unpaired match
is not silently dropped — so an odd count (including exactly one match)
aborts the construction instead of returning events. -/
theorem c1_gait_event_count (g : Grid) :
    ((df_match_indexes g ("Foot Strike")).length % 2 = 0 →
      (∀ p ∈ df_match_indexes g ("Foot Strike"), ∀ q ∈ df_match_indexes g ("Foot Strike"),
        ((cellAt g q.1 (p.2 + 1)).toFloat).isSome = true) →
      (gait_retrieve g).map List.length =
        Except.ok ((df_match_indexes g ("Foot Strike")).length / 2)) ∧
    ((df_match_indexes g ("Foot Strike")).length % 2 = 1 →
      gait_retrieve g = Except.error ()) := by
  constructor
  · intro heven hc
    obtain ⟨ts, hts, hlen⟩ :=
      gaitPairs_even_aux g (df_match_indexes g ("Foot Strike")).length
        (df_match_indexes g ("Foot Strike")) le_rfl heven hc
    unfold gait_retrieve
    rw [hts]
    simp [Except.map, hlen]
  · intro hodd
    exact gaitPairs_odd_aux g (df_match_indexes g ("Foot Strike")).length
      (df_match_indexes g ("Foot Strike")) le_rfl hodd

/-- Witness for C1's theorem: a grid with two matches yields one gait event;
the three-match grid raises. -/
theorem c1_gait_event_count_witness :
    (gait_retrieve wG1).map List.length = Except.ok 1 ∧
    gait_retrieve exG1 = Except.error () := by
  constructor
  · exact ((c1_gait_event_count wG1).1 (by decide) (by decide)).trans (by decide)
  · exact (c1_gait_event_count exG1).2 (by decide)

/-- Counterexample for C1 as stated: a grid with three "Foot Strike"
matches (odd count, at least 2 matches) raises an uncaught IndexError
instead of producing floor(3/2) = 1 gait event with the last match silently
dropped. -/
theorem c1_odd_count_counterexample :
    (df_match_indexes exG1 ("Foot Strike")).length = 3 ∧
    gait_retrieve exG1 = Except.error () := by decide

/-- The pairing loop reads pair k's start time at (rows[2k], cols[2k] + 1)
and its end time at (rows[2k+1], cols[2k] + 1): the end time comes from the
first marker's column, not the second marker's. -/
theorem gaitPairs_get_aux (g : Grid) :
    ∀ (k : Nat) (l : List (Nat × Nat)) (ts : List (PyFloat × PyFloat))
      (r1 c1 r2 c2 : Nat) (s e : PyFloat),
      gaitPairs g l = Except.ok ts →
      l.get? (2 * k) = some (r1, c1) → l.get? (2 * k + 1) = some (r2, c2) →
      ts.get? k = some (s, e) →
      (cellAt g r1 (c1 + 1)).toFloat = some s ∧
        (cellAt g r2 (c1 + 1)).toFloat = some e := by
  intro k
  induction k with
  | zero =>
    intro l ts r1 c1 r2 c2 s e h h1 h2 hk
    match l with
    | [] => simp at h1
    | [p] => simp at h2
    | p1 :: p2 :: rest =>
      simp only [Nat.mul_zero, List.get?] at h1 h2
      cases h1
      cases h2
      cases ht1 : (cellAt g (r1, c1).1 ((r1, c1).2 + 1)).toFloat with
      | none => rw [gaitPairs, ht1] at h; cases h
      | some t1 =>
        cases ht2 : (cellAt g (r2, c2).1 ((r1, c1).2 + 1)).toFloat with
        | none => rw [gaitPairs, ht1, ht2] at h; cases h
        | some t2 =>
          rw [gaitPairs, ht1, ht2] at h
          cases hrest : gaitPairs g rest with
          | error u => rw [hrest] at h; cases h
          | ok tl =>
            rw [hrest] at h
            simp only [Except.ok.injEq] at h
            subst h
            simp only [List.get?, Option.some.injEq, Prod.mk.injEq] at hk
            obtain ⟨rfl, rfl⟩ := hk
            exact ⟨rfl, rfl⟩
  | succ kk ih =>
    intro l ts r1 c1 r2 c2 s e h h1 h2 hk
    match l with
    | [] => simp at h1
    | [p] => exact absurd h (by simp [gaitPairs])
    | p1 :: p2 :: rest =>
      have e1 : 2 * (kk + 1) = 2 * kk + 1 + 1 := by ring
      have e2 : 2 * (kk + 1) + 1 = (2 * kk + 1) + 1 + 1 := by ring
      rw [e1] at h1
      rw [e2] at h2
      simp only [List.get?] at h1 h2
      cases ht1 : (cellAt g p1.1 (p1.2 + 1)).toFloat with
      | none => rw [gaitPairs, ht1] at h; cases h
      | some t1 =>
        cases ht2 : (cellAt g p2.1 (p1.2 + 1)).toFloat with
        | none => rw [gaitPairs, ht1, ht2] at h; cases h
        | some t2 =>
          rw [gaitPairs, ht1, ht2] at h
          cases hrest : gaitPairs g rest with
          | error u => rw [hrest] at h; cases h
          | ok tl =>
            rw [hrest] at h
            simp only [Except.ok.injEq] at h
            subst h
            simp only [List.get?] at hk
            exact ih rest tl r1 c1 r2 c2 s e hrest h1 h2 hk

/-- C8 (corrected): for the k-th gait event produced by gait_retrieve, the
start time is read one column right of the pair's first marker (in its row),
but the end time is read in the second marker's row at the FIRST marker's
column + 1 (events_cols[n] + 1 is used for both reads), not one column right
of the second marker. -/
theorem c8_pair_time_columns (g : Grid) (ts : List (PyFloat × PyFloat))
    (k r1 c1 r2 c2 : Nat) (s e : PyFloat)
    (h : gait_retrieve g = Except.ok ts)
    (h1 : (df_match_indexes g ("Foot Strike")).get? (2 * k) = some (r1, c1))
    (h2 : (df_match_indexes g ("Foot Strike")).get? (2 * k + 1) = some (r2, c2))
    (hk : ts.get? k = some (s, e)) :
    (cellAt g r1 (c1 + 1)).toFloat = some s ∧
      (cellAt g r2 (c1 + 1)).toFloat = some e :=
  gaitPairs_get_aux g k (df_match_indexes g ("Foot Strike")) ts r1 c1 r2 c2 s e h h1 h2 hk

/-- Witness for C8's theorem on the two-column-marker grid exG8. -/
theorem c8_pair_time_columns_witness :
    (cellAt exG8 0 (0 + 1)).toFloat = some (PyFloat.val 1) ∧
      (cellAt exG8 1 (0 + 1)).toFloat = some (PyFloat.val 7) :=
  c8_pair_time_columns exG8 [(PyFloat.val 1, PyFloat.val 7)] 0 0 0 1 3
    (PyFloat.val 1) (PyFloat.val 7) (by decide) (by decide) (by decide) (by decide)

/-- Counterexample for C8 as stated: with markers at (0,0) and (1,3), the
produced end time is 7 — the value at (1, 0+1), the first marker's column —
whereas the cell one column right of the second marker, (1, 3+1), holds 9. -/
theorem c8_end_column_counterexample :
    gait_retrieve exG8 = Except.ok [(PyFloat.val 1, PyFloat.val 7)] ∧
    df_match_indexes exG8 ("Foot Strike") = [(0, 0), (1, 3)] ∧
    (cellAt exG8 1 (3 + 1)).toFloat = some (PyFloat.val 9) ∧
    PyFloat.val 7 ≠ PyFloat.val 9 := by decide

/-- A batch name with no match anywhere in the grid makes batch_retrieve
itself raise (the IndexError in df_first_match_index is outside the try). -/
theorem batch_retrieve_missing_anchor (proc : List Cell → Except Unit (List Cell))
    (g : Grid) (ts : List (PyFloat × PyFloat)) (b : String) (mc : Nat)
    (hnone : df_match_indexes g b = []) :
    batch_retrieve proc g ts b mc = Except.error () := by
  unfold batch_retrieve df_first_match_row
  rw [hnone]

/-- An error raised for one requested batch propagates out of the attrs
loop. -/
theorem attrs_mapM_error {β : Type} (f : String → Except Unit β) :
    ∀ (batches : List String) (b : String), b ∈ batches → f b = Except.error () →
      batches.mapM f = Except.error () := by
  intro batches
  induction batches with
  | nil => intro b hb; cases hb
  | cons a rest ih =>
    intro b hb hf
    rw [List.mapM_cons]
    cases hfa : f a with
    | error u => cases u; simp [hfa, Bind.bind, Except.bind]
    | ok x =>
      rcases List.mem_cons.mp hb with rfl | hbr
      · rw [hf] at hfa; cases hfa
      · simp only [hfa, Bind.bind, Except.bind]
        rw [ih b hbr hf]

/-- C2 (corrected): a batch name that matches no cell does not produce a
contained per-batch failure: the IndexError from df_first_match_index escapes
batch_retrieve and aborts the whole construction, so no batch (including the
others requested) yields any data. -/
theorem c2_missing_batch_crashes (proc : List Cell → Except Unit (List Cell))
    (g : Grid) (ts : List (PyFloat × PyFloat)) (batches : List String) (b : String)
    (mc : Nat)
    (hts : gait_retrieve g = Except.ok ts)
    (hb : b ∈ batches)
    (hnone : df_match_indexes g b = []) :
    viconAttrs proc g batches mc = Except.error () := by
  unfold viconAttrs
  rw [hts]
  apply attrs_mapM_error _ batches b hb
  rw [batch_retrieve_missing_anchor proc g ts b mc hnone]
  rfl

/-- Witness for C2's theorem: requesting "Joints" on the one-cell grid exG2
aborts the construction. -/
theorem c2_missing_batch_crashes_witness :
    viconAttrs data_process_base exG2 ["Joints"] 3 = Except.error () :=
  c2_missing_batch_crashes data_process_base exG2 [] ["Joints"] "Joints" 3
    (by decide) (by decide) (by decide)

/-- Counterexample for C2 as stated: on exG2 the batch name "Joints" matches
no cell, and the construction crashes (uncaught IndexError) instead of
reporting the missing anchor and carrying on with no data for that batch. -/
theorem c2_missing_batch_counterexample :
    df_match_indexes exG2 ("Joints") = [] ∧
    gait_retrieve exG2 = Except.ok [] ∧
    viconAttrs data_process_base exG2 ["Joints"] 3 = Except.error () := by decide

/-- When no requested batch raises an uncaught error, the construction
succeeds and each batch is paired with its own extraction result,
independently of the others. -/
theorem attrs_mapM_ok (f : String → Except Unit (Option GaitsT)) :
    ∀ (batches : List String),
      (∀ b ∈ batches, f b ≠ Except.error ()) →
      batches.mapM (fun b => (f b).map (fun r => (b, r))) =
        Except.ok (batches.map (fun b => (b, exceptGetOpt (f b)))) := by
  intro batches
  induction batches with
  | nil => intro _; rfl
  | cons a rest ih =>
    intro h
    have ha : f a ≠ Except.error () := h a (List.mem_cons_self a rest)
    cases hfa : f a with
    | error u => cases u; exact absurd hfa ha
    | ok r =>
      rw [List.mapM_cons, hfa, ih (fun b hb => h b (List.mem_cons_of_mem a hb))]
      simp only [List.map_cons, hfa, exceptGetOpt]
      rfl

/-- C3 (confirmed): when the in-try column loop of one batch raises (as a
non-coercible sliced cell does via float()), that batch's extraction is
aborted as a whole — the bare except turns it into a printed warning naming
the file and a None result, never a partial mapping — while construction
succeeds and every other batch is paired with its own, unaffected result. -/
theorem c3_batch_abort_is_contained (proc : List Cell → Except Unit (List Cell))
    (g : Grid) (ts : List (PyFloat × PyFloat)) (batches : List String) (b : String)
    (mc a : Nat) (fsv orv : ℤ)
    (hts : gait_retrieve g = Except.ok ts)
    (ha : df_first_match_row g b = Except.ok a)
    (hfs : (cellAt g (a + 5) 0).toInt = some fsv)
    (hor : (cellAt g (a + 5 - 4) 0).toInt = some orv)
    (hfail : batchLoop proc g ts (a + 5) fsv orv
        (rowCells g (a + 5 - 3) mc) (rowCells g (a + 5 - 2) mc) = Except.error ())
    (hothers : ∀ c ∈ batches, batch_retrieve proc g ts c mc ≠ Except.error ()) :
    batch_retrieve proc g ts b mc = Except.ok none ∧
    viconAttrs proc g batches mc =
      Except.ok (batches.map (fun c => (c, exceptGetOpt (batch_retrieve proc g ts c mc)))) := by
  constructor
  · simp only [batch_retrieve, ha, hfs, hor, hfail]
  · unfold viconAttrs
    rw [hts]
    exact attrs_mapM_ok _ batches hothers

/-- Witness for C3's theorem on exG3: batch "B" holds the non-numeric cell
"bad" in its sliced region, aborts to None, and batch "A" still extracts. -/
theorem c3_batch_abort_is_contained_witness :
    batch_retrieve data_process_base exG3 [(PyFloat.val 0, PyFloat.val (1/100))] "B" 5 =
      Except.ok none ∧
    viconAttrs data_process_base exG3 ["A", "B"] 5 =
      Except.ok (["A", "B"].map (fun c =>
        (c, exceptGetOpt (batch_retrieve data_process_base exG3
          [(PyFloat.val 0, PyFloat.val (1/100))] c 5)))) :=
  c3_batch_abort_is_contained data_process_base exG3
    [(PyFloat.val 0, PyFloat.val (1/100))] ["A", "B"] "B" 5 8 0 100
    (by with_unfolding_all rfl) (by decide) (by with_unfolding_all rfl)
    (by with_unfolding_all rfl) (by with_unfolding_all rfl)
    (by with_unfolding_all decide)

/-- C6 (corrected): when a gait's start time maps below row_start, time2row
logs and returns an absent row (no exception is raised), but the gait's
extraction for that column is NOT skipped or left empty: the absent start
flows into df.loc[None : end_row] as an open slice bound, so the column is
sliced from the grid's first row through the end row and processing continues
on that (wrong) slice. -/
theorem c6_invalid_start_slices_from_top (proc : List Cell → Except Unit (List Cell))
    (g : Grid) (rs : Nat) (fsv orv : ℤ) (t u : PyFloat) (c h : Nat)
    (hs : time2row rs fsv orv t = Except.ok none)
    (he : time2row rs fsv orv u = Except.ok (some h)) :
    gait_extract proc g rs fsv orv t u c =
      proc ((g.take (h + 1)).map (fun row => row.getD c Cell.nan)) := by
  unfold gait_extract
  rw [hs, he]
  simp [colSlice]

/-- Witness for C6's theorem on exG6 (frame_start 100, start time 0, end time
1.02): the column-3 extraction processes rows 0..7. -/
theorem c6_invalid_start_slices_from_top_witness :
    gait_extract data_process_base exG6 5 100 100 (PyFloat.val 0)
      (PyFloat.val (51/50)) 3 =
    data_process_base ((exG6.take (7 + 1)).map (fun row => row.getD 3 Cell.nan)) :=
  c6_invalid_start_slices_from_top data_process_base exG6 5 100 100
    (PyFloat.val 0) (PyFloat.val (51/50)) 3 7
    (by with_unfolding_all rfl) (by with_unfolding_all rfl)

/-- Counterexample for C6 as stated: on exG6 the gait's start time 0 precedes
frame_start 100, the condition is indeed only logged (time2row returns
absent), but the gait's column is not skipped and the remaining extraction
does not continue normally: the from-the-top slice drags the sub-parameter
header "X" into the data, float() fails, and the whole batch aborts to
None. -/
theorem c6_not_skipped_counterexample :
    time2row 5 100 100 (PyFloat.val 0) = Except.ok none ∧
    batch_retrieve data_process_base exG6 [(PyFloat.val 0, PyFloat.val (51/50))]
      "Joints" 5 = Except.ok none := by
  exact ⟨by with_unfolding_all rfl, by with_unfolding_all rfl⟩

/-- The sub-parameter half of a column step keeps the current parameter
name. -/
theorem colStepSub_param (proc : List Cell → Except Unit (List Cell)) (g : Grid)
    (ts : List (PyFloat × PyFloat)) (rs : Nat) (fsv orv : ℤ) (sl : List Cell)
    (nm : Option String) (gaits : GaitsT) (n : Nat) (st2 : Option String × GaitsT)
    (h : colStepSub proc g ts rs fsv orv sl nm gaits n = Except.ok st2) :
    st2.1 = nm := by
  unfold colStepSub at h
  split at h
  · split at h
    · exact absurd h (by simp)
    · simp only [Except.ok.injEq] at h
      subst h
      rfl
  · simp only [Except.ok.injEq] at h
    subst h
    rfl

/-- One successful column step leaves the current parameter name exactly as
the pure one-column scan prescribes: a string header cell installs its
split(':')[1] name, anything else keeps the previous one. -/
theorem colStep_param (proc : List Cell → Except Unit (List Cell)) (g : Grid)
    (ts : List (PyFloat × PyFloat)) (rs : Nat) (fsv orv : ℤ) (pl sl : List Cell)
    (st : Option String × GaitsT) (k : Nat) (st2 : Option String × GaitsT)
    (h : colStep proc g ts rs fsv orv pl sl st k = Except.ok st2) :
    st2.1 = paramScan pl [k] st.1 := by
  unfold colStep at h
  cases hpc : pl.getD k Cell.nan with
  | str s =>
    simp only [hpc] at h
    cases hd : deriveName s with
    | none => simp only [hd] at h; exact absurd h (by simp)
    | some nm =>
      simp only [hd] at h
      have h2 := colStepSub_param proc g ts rs fsv orv sl (some nm) _ k st2 h
      simp only [paramScan, hpc, hd, h2]
  | nan =>
    simp only [hpc] at h
    have h2 := colStepSub_param proc g ts rs fsv orv sl st.1 st.2 k st2 h
    simp only [paramScan, hpc, h2]
  | num x =>
    simp only [hpc] at h
    have h2 := colStepSub_param proc g ts rs fsv orv sl st.1 st.2 k st2 h
    simp only [paramScan, hpc, h2]

/-- Unfolding the pure scan one column at a time. -/
theorem paramScan_cons (pl : List Cell) (k : Nat) (rest : List Nat)
    (acc : Option String) :
    paramScan pl (k :: rest) acc = paramScan pl rest (paramScan pl [k] acc) := by
  cases hc : pl.getD k Cell.nan <;> simp only [paramScan, hc]

/-- C9 (corrected): across the whole header walk, the current parameter name
after any successfully processed column prefix equals the pure left-to-right
scan: the most recent non-empty header cell's name, derived as the SECOND
':'-separated segment (split(':')[1]) — for a cell with two or more colons
this is the text between the first and second colon, not all text after the
first colon — and it stays in force until the next non-empty header cell. -/
theorem c9_param_scoping (proc : List Cell → Except Unit (List Cell)) (g : Grid)
    (ts : List (PyFloat × PyFloat)) (rs : Nat) (fsv orv : ℤ) (pl sl : List Cell)
    (cols : List Nat) (st : Option String × GaitsT) (p : Option String)
    (gaits : GaitsT)
    (h : cols.foldlM (colStep proc g ts rs fsv orv pl sl) st = Except.ok (p, gaits)) :
    p = paramScan pl cols st.1 := by
  induction cols generalizing st with
  | nil =>
    have h2 : Except.ok st = Except.ok (p, gaits) := h
    simp only [Except.ok.injEq] at h2
    rw [h2]
    rfl
  | cons k rest ih =>
    rw [List.foldlM_cons] at h
    cases hstep : colStep proc g ts rs fsv orv pl sl st k with
    | error u => rw [hstep] at h; exact absurd h (by simp [Bind.bind, Except.bind])
    | ok st2 =>
      rw [hstep] at h
      have h2 : rest.foldlM (colStep proc g ts rs fsv orv pl sl) st2 =
          Except.ok (p, gaits) := h
      rw [paramScan_cons, ← colStep_param proc g ts rs fsv orv pl sl st k st2 hstep]
      exact ih st2 h2

/-- Witness for C9's theorem on exG9 ("m:a:b" header at column 2): the
current parameter after columns 2..4 is "a". -/
theorem c9_param_scoping_witness :
    (some ("a") : Option String) = paramScan (rowCells exG9 2 5) (List.range' 2 3) none :=
  c9_param_scoping data_process_base exG9 [(PyFloat.val 0, PyFloat.val (1/100))]
    5 0 100 (rowCells exG9 2 5) (rowCells exG9 3 5) (List.range' 2 3)
    (none, initGaits [(PyFloat.val 0, PyFloat.val (1/100))]) (some ("a"))
    [[("a", [("X", [PyFloat.val 7, PyFloat.val 8])])]]
    (by with_unfolding_all rfl)

/-- Counterexample for C9 as stated: the header cell "m:a:b" stores its
series under parameter name "a" (split(':')[1]), not under "a:b" (the text
after the first ':' delimiter). -/
theorem c9_after_first_colon_counterexample :
    specParamName ("m:a:b") = some ("a:b") ∧
    deriveName ("m:a:b") = some ("a") ∧
    batch_retrieve data_process_base exG9 [(PyFloat.val 0, PyFloat.val (1/100))]
      "Joints" 5 =
      Except.ok (some [[("a", [("X", [PyFloat.val 7, PyFloat.val 8])])]]) ∧
    (some ("a") : Option String) ≠ some ("a:b") := by
  exact ⟨by with_unfolding_all rfl, by with_unfolding_all rfl,
    by with_unfolding_all rfl, by decide⟩

/-- With no parameter header seen yet, processing a sub-parameter column with
at least one gait always raises: whatever the extraction and float() mapping
yield, resolving param_name raises the NameError. -/
theorem subLoop_none_error (proc : List Cell → Except Unit (List Cell)) (g : Grid)
    (rs : Nat) (fsv orv : ℤ) (sub : String) (col : Nat)
    (t : PyFloat × PyFloat) (gait : AListT)
    (rest : List ((PyFloat × PyFloat) × AListT)) :
    subLoop proc g rs fsv orv none sub col ((t, gait) :: rest) = Except.error () := by
  cases h1 : gait_extract proc g rs fsv orv t.1 t.2 col with
  | error u => simp only [subLoop, h1]
  | ok raw =>
    cases h2 : mapFloats raw with
    | none => simp only [subLoop, h1, h2]
    | some ed => simp only [subLoop, h1, h2]

/-- A column whose parameter cell is not a string and whose sub-parameter
cell is a string errors under an unset parameter name and a non-empty gait
list. -/
theorem colStep_none_sub_err (proc : List Cell → Except Unit (List Cell)) (g : Grid)
    (ts : List (PyFloat × PyFloat)) (rs : Nat) (fsv orv : ℤ) (pl sl : List Cell)
    (st : Option String × GaitsT) (n : Nat)
    (h1 : st.1 = none) (hne : ts ≠ []) (hne2 : st.2 ≠ [])
    (hnp : ∀ s, pl.getD n Cell.nan ≠ Cell.str s)
    (hsub : ∃ s, sl.getD n Cell.nan = Cell.str s) :
    colStep proc g ts rs fsv orv pl sl st n = Except.error () := by
  obtain ⟨s, hs⟩ := hsub
  obtain ⟨a, as, rfl⟩ := List.exists_cons_of_ne_nil hne
  obtain ⟨b, bs, hst⟩ := List.exists_cons_of_ne_nil hne2
  unfold colStep
  cases hpc : pl.getD n Cell.nan with
  | str s2 => exact absurd hpc (hnp s2)
  | nan =>
    simp only [hpc, colStepSub, hs, h1, hst, List.zip_cons_cons, subLoop_none_error]
  | num x =>
    simp only [hpc, colStepSub, hs, h1, hst, List.zip_cons_cons, subLoop_none_error]

/-- A column with neither a parameter string nor a sub-parameter string
passes the state through unchanged. -/
theorem colStep_skip (proc : List Cell → Except Unit (List Cell)) (g : Grid)
    (ts : List (PyFloat × PyFloat)) (rs : Nat) (fsv orv : ℤ) (pl sl : List Cell)
    (st : Option String × GaitsT) (n : Nat)
    (hnp : ∀ s, pl.getD n Cell.nan ≠ Cell.str s)
    (hns : ∀ s, sl.getD n Cell.nan ≠ Cell.str s) :
    colStep proc g ts rs fsv orv pl sl st n = Except.ok (st.1, st.2) := by
  unfold colStep
  cases hpc : pl.getD n Cell.nan with
  | str s => exact absurd hpc (hnp s)
  | nan =>
    cases hsc : sl.getD n Cell.nan with
    | str s => exact absurd hsc (hns s)
    | nan => simp only [hpc, colStepSub, hsc]
    | num x => simp only [hpc, colStepSub, hsc]
  | num x =>
    cases hsc : sl.getD n Cell.nan with
    | str s => exact absurd hsc (hns s)
    | nan => simp only [hpc, colStepSub, hsc]
    | num x => simp only [hpc, colStepSub, hsc]

/-- Threading the header walk up to an orphan sub-parameter column: with a
non-empty gait list, the fold over any column list that reaches a
sub-parameter string before any parameter string errors. -/
theorem c10_loop_err_aux (proc : List Cell → Except Unit (List Cell)) (g : Grid)
    (ts : List (PyFloat × PyFloat)) (rs : Nat) (fsv orv : ℤ) (pl sl : List Cell)
    (hne : ts ≠ []) :
    ∀ (l1 : List Nat) (n : Nat) (l2 : List Nat) (st : Option String × GaitsT),
      st.1 = none → st.2 ≠ [] →
      (∀ k ∈ l1, ∀ s, pl.getD k Cell.nan ≠ Cell.str s) →
      (∀ s, pl.getD n Cell.nan ≠ Cell.str s) →
      (∃ s, sl.getD n Cell.nan = Cell.str s) →
      (l1 ++ n :: l2).foldlM (colStep proc g ts rs fsv orv pl sl) st =
        Except.error () := by
  intro l1
  induction l1 with
  | nil =>
    intro n l2 st h1 h2 _ hnp hsub
    rw [List.nil_append, List.foldlM_cons,
      colStep_none_sub_err proc g ts rs fsv orv pl sl st n h1 hne h2 hnp hsub]
    rfl
  | cons j l1t ih =>
    intro n l2 st h1 h2 hl1 hnp hsub
    rw [List.cons_append, List.foldlM_cons]
    by_cases hjs : ∃ s, sl.getD j Cell.nan = Cell.str s
    · rw [colStep_none_sub_err proc g ts rs fsv orv pl sl st j h1 hne h2
        (hl1 j (List.mem_cons_self j l1t)) hjs]
      rfl
    · push_neg at hjs
      rw [colStep_skip proc g ts rs fsv orv pl sl st j
        (hl1 j (List.mem_cons_self j l1t)) hjs]
      exact ih n l2 (st.1, st.2) h1 h2
        (fun k hk => hl1 k (List.mem_cons_of_mem j hk)) hnp hsub

/-- C10 (corrected): a non-empty sub-parameter header at column n (2 ≤ n <
max_col) with no non-empty parameter header at any column 2..n aborts the
whole batch — the unbound param_name raises a NameError, the bare except
catches it and the batch result is None — PROVIDED at least one gait
timestamp exists; with zero gaits the per-gait loop body never runs, nothing
raises, and the batch returns an empty (but present) gaits list. -/
theorem c10_orphan_subparam_aborts (proc : List Cell → Except Unit (List Cell))
    (g : Grid) (ts : List (PyFloat × PyFloat)) (b : String) (mc a : Nat)
    (fsv orv : ℤ) (n : Nat)
    (hne : ts ≠ [])
    (ha : df_first_match_row g b = Except.ok a)
    (hfs : (cellAt g (a + 5) 0).toInt = some fsv)
    (hor : (cellAt g (a + 5 - 4) 0).toInt = some orv)
    (hn2 : 2 ≤ n) (hnmc : n < mc)
    (hsub : ∃ s, (rowCells g (a + 5 - 2) mc).getD n Cell.nan = Cell.str s)
    (hnp : ∀ k, 2 ≤ k → k ≤ n → ∀ s,
      (rowCells g (a + 5 - 3) mc).getD k Cell.nan ≠ Cell.str s) :
    batch_retrieve proc g ts b mc = Except.ok none := by
  have hfail : batchLoop proc g ts (a + 5) fsv orv
      (rowCells g (a + 5 - 3) mc) (rowCells g (a + 5 - 2) mc) = Except.error () := by
    unfold batchLoop
    have hlen : (rowCells g (a + 5 - 3) mc).length = mc := by
      unfold rowCells
      rw [List.length_map, List.length_range]
    rw [hlen]
    have hsplit : List.range' 2 (mc - 2) =
        List.range' 2 (n - 2) ++ n :: List.range' (n + 1) (mc - n - 1) := by
      obtain ⟨m, hm⟩ : ∃ m, mc - n = m + 1 := ⟨mc - n - 1, by omega⟩
      have h2 : n :: List.range' (n + 1) (mc - n - 1) = List.range' n (mc - n) := by
        rw [hm, List.range'_succ, Nat.add_sub_cancel]
      rw [h2]
      have h1 := List.range'_append_1 2 (n - 2) (mc - n)
      rw [show 2 + (n - 2) = n by omega] at h1
      rw [show mc - n + (n - 2) = mc - 2 by omega] at h1
      exact h1.symm
    rw [hsplit,
      c10_loop_err_aux proc g ts (a + 5) fsv orv (rowCells g (a + 5 - 3) mc)
        (rowCells g (a + 5 - 2) mc) hne (List.range' 2 (n - 2)) n
        (List.range' (n + 1) (mc - n - 1)) (none, initGaits ts) rfl
        (by
          intro hnil
          rw [initGaits, List.map_eq_nil_iff] at hnil
          exact hne hnil)
        (by
          intro k hk s
          have hk2 := List.mem_range'_1.mp hk
          exact hnp k hk2.1 (by omega) s)
        (hnp n hn2 le_rfl) hsub]
    rfl
  simp only [batch_retrieve, ha, hfs, hor, hfail]

/-- A batch grid like exG10 but used with one gait timestamp: sub-parameter
header "X" at column 2 and no parameter header anywhere. -/
def exG10w : Grid :=
  [[Cell.str ("Joints")],
   [Cell.num 100],
   [],
   [Cell.nan, Cell.nan, Cell.str ("X")],
   [],
   [Cell.num 0]]

/-- Witness for C10's theorem on exG10w with one gait. -/
theorem c10_orphan_subparam_aborts_witness :
    batch_retrieve data_process_base exG10w [(PyFloat.val 0, PyFloat.val 0)]
      "Joints" 4 = Except.ok none :=
  c10_orphan_subparam_aborts data_process_base exG10w
    [(PyFloat.val 0, PyFloat.val 0)] "Joints" 4 0 0 100 2
    (by decide) (by decide) (by with_unfolding_all rfl)
    (by with_unfolding_all rfl) (by decide) (by decide)
    ⟨"X", by with_unfolding_all rfl⟩
    (by
      intro k hk1 hk2 s
      have hk : k = 2 := by omega
      subst hk
      have hcell : (rowCells exG10w (0 + 5 - 3) 4).getD 2 Cell.nan = Cell.nan := by
        with_unfolding_all rfl
      rw [hcell]
      simp)

/-- Counterexample for C10 as stated: on exG10 with zero gait timestamps the
orphan sub-parameter column does NOT abort the batch; the batch result is a
present (empty) gaits list, not an absent one. -/
theorem c10_zero_gaits_counterexample :
    cellAt exG10 3 2 = Cell.str ("X") ∧
    (List.range 4).all (fun k => !isStrCell (cellAt exG10 2 k)) = true ∧
    batch_retrieve data_process_base exG10 [] "Joints" 4 = Except.ok (some []) ∧
    (Except.ok (some ([] : GaitsT)) : Except Unit (Option GaitsT)) ≠
      Except.ok none := by
  exact ⟨by decide, by decide, by decide, by decide⟩

end Vicon





